import Mathlib

/-!
Shallow embedding of the admin-app command dispatcher (src/src/admin.rs).

The app serves one logical command table over two transports:
a CTAPHID packet transport (`hid::App::call`) and an ISO7816 card
transport (`apdu::App::call`).  External collaborators are modelled at
their interface boundary:

* the trussed service (`random_bytes`, `confirm_user_present`, `wink`)
  is a deterministic state machine: an infinite random-byte stream with
  a consumption position, a stream of presence-confirmation outcomes
  with a position, and a log of wink signals;
* the `Reboot` capability has three diverging operations; since a
  diverging call never returns, a dispatch outcome is either
  `diverged k` (the reboot variant `k` was invoked and control never
  came back) or a normal `ok` / `err e` return;
* the heapless response buffers (`ctaphid` `Message`,
  `apdu_dispatch::response::Data`) are byte lists with a fixed
  capacity; `extend_from_slice` is all-or-nothing: if the new bytes do
  not fit into the remaining capacity it appends nothing and returns an
  error, which the dispatcher discards with `.ok()`.

Machine integers are modelled as `Nat` (bytes are values `< 256`, the
version is a value `< 2 ^ 32`); byte extraction uses `/` and `% 256`
explicitly.
-/

namespace AdminApp

/-- Vendor command code `UPDATE` (`VendorCommand::H51`). -/
def UPDATE : Nat := 0x51

/-- Vendor command code `REBOOT` (`VendorCommand::H53`). -/
def REBOOT : Nat := 0x53

/-- Vendor command code `RNG` (`VendorCommand::H60`). -/
def RNG : Nat := 0x60

/-- Vendor command code `VERSION` (`VendorCommand::H61`). -/
def VERSION : Nat := 0x61

/-- Vendor command code `UUID` (`VendorCommand::H62`). -/
def UUID : Nat := 0x62

/-- ctaphid-dispatch `VendorCommand::try_from(u8)`: a byte converts to a
vendor command exactly when it lies in the vendor range `0x40 ..= 0x7F`. -/
def vendorCommandTryFrom (b : Nat) : Option Nat :=
  if 0x40 ≤ b ∧ b ≤ 0x7f then some b else none

/-- Capacity of a ctaphid `Message` (ctaphid-dispatch `MESSAGE_SIZE`). -/
def MESSAGE_SIZE : Nat := 7609

/-- Capacity of an apdu reply buffer (`apdu_dispatch::response::SIZE`). -/
def RESPONSE_SIZE : Nat := 7609

/-- heapless `Vec::extend_from_slice` with the `Result` discarded by
`.ok()`: appending is all-or-nothing.  If the new bytes do not fit into
the remaining capacity, the buffer is left unchanged (and the error is
swallowed); otherwise all of them are appended. -/
def extendFromSlice (capacity : Nat) (buf newBytes : List Nat) : List Nat :=
  if capacity < buf.length + newBytes.length then buf else buf ++ newBytes

/-- The three diverging operations of the `Reboot` capability. -/
inductive RebootKind
  | reboot
  | rebootToFirmwareUpdate
  | rebootToFirmwareUpdateDestructive
deriving DecidableEq, Repr

/-- The `ctaphid_dispatch::app::Error` values used by the dispatcher. -/
inductive HidError
  | InvalidCommand
  | InvalidLength
deriving DecidableEq, Repr

/-- The `iso7816::Status` values used by the dispatcher. -/
inductive Status
  | ConditionsOfUseNotSatisfied
  | InstructionNotSupportedOrInvalid
deriving DecidableEq, Repr

/-- Calls the dispatcher issues into the trusted (trussed) service. -/
inductive Effect
  | randomBytes (n : Nat)
  | confirmUserPresent (timeoutMs : Nat)
  | wink (seconds : Nat)
deriving DecidableEq, Repr

/-- ctaphid command identifiers (`ctaphid_dispatch::app::Command`): the
built-in commands plus vendor commands carrying their code byte. -/
inductive HidCommand
  | msg
  | cbor
  | init
  | ping
  | cancel
  | error
  | keepalive
  | wink
  | lock
  | vendor (code : Nat)
deriving DecidableEq, Repr

/-- The physical interface an apdu arrived on (`apdu_dispatch::app::Interface`). -/
inductive Interface
  | contact
  | contactless
deriving DecidableEq, Repr

/-- The fields of an iso7816 command that the dispatcher reads: the
instruction byte and the `p1` parameter byte. -/
structure ApduCommand where
  instruction : Nat
  p1 : Nat
deriving DecidableEq, Repr

/-- State of the trusted execution service, at its interface boundary:
a deterministic byte stream for `random_bytes` with a consumption
position, a deterministic outcome stream for `confirm_user_present`
with a position, and a log of issued wink signals. -/
structure Trussed where
  randomData : Nat → Nat
  rngPos : Nat
  presence : Nat → Bool
  presencePos : Nat
  winks : List Nat

/-- trussed `random_bytes(n)`: returns the next `n` bytes of the stream
and advances the position. -/
def randomBytes (tr : Trussed) (n : Nat) : List Nat × Trussed :=
  ((List.range n).map (fun i => tr.randomData (tr.rngPos + i) % 256),
   { tr with rngPos := tr.rngPos + n })

/-- trussed `confirm_user_present(timeout)`: returns the next presence
outcome and advances the position. -/
def confirmUserPresent (tr : Trussed) (_timeoutMs : Nat) : Bool × Trussed :=
  (tr.presence tr.presencePos, { tr with presencePos := tr.presencePos + 1 })

/-- trussed `wink(duration)`: logs the signal. -/
def trussedWink (tr : Trussed) (seconds : Nat) : Trussed :=
  { tr with winks := tr.winks ++ [seconds] }

/-- The `App` struct: trussed client handle, immutable 16-byte uuid and
32-bit version (the `boot_interface` field is phantom data). -/
structure App where
  trussed : Trussed
  uuid : List Nat
  version : Nat

/-- `App::new`. -/
def App.new (client : Trussed) (uuid : List Nat) (version : Nat) : App :=
  { trussed := client, uuid := uuid, version := version }

/-- `App::user_present`: one presence confirmation with a 15000 ms
timeout, reduced to a boolean outcome. -/
def App.userPresent (app : App) : Bool × App :=
  let r := confirmUserPresent app.trussed 15000
  (r.1, { app with trussed := r.2 })

/-- Outcome of one dispatch call: either a diverging reboot invocation
(control never returns to the transport dispatcher) or a normal return
`Ok(())` / `Err e`. -/
inductive DispatchResult (ε : Type)
  | diverged (k : RebootKind)
  | ok
  | err (e : ε)
deriving DecidableEq, Repr

/-- Everything one dispatch call produces: the result, the app state as
of the return (or as of the diverging call), the response buffer, and
the trace of trusted-service calls issued. -/
structure Outcome (ε : Type) where
  result : DispatchResult ε
  app : App
  response : List Nat
  effects : List Effect

/-- `u32::to_be_bytes`: big-endian byte decomposition of a 32-bit value. -/
def toBeBytes32 (v : Nat) : List Nat :=
  [v / 2 ^ 24 % 256, v / 2 ^ 16 % 256, v / 2 ^ 8 % 256, v % 256]

/-- `hid::App::call` (src/src/admin.rs lines 77-113): dispatch one
ctaphid command. -/
def hidCall (app : App) (command : HidCommand) (inputData response : List Nat) :
    Outcome HidError :=
  match command with
  | HidCommand.vendor c =>
    if c = REBOOT then
      ⟨DispatchResult.diverged RebootKind.reboot, app, response, []⟩
    else if c = RNG then
      let r := randomBytes app.trussed 57
      ⟨DispatchResult.ok, { app with trussed := r.2 },
        extendFromSlice MESSAGE_SIZE response r.1, [Effect.randomBytes 57]⟩
    else if c = UPDATE then
      let p := app.userPresent
      if p.1 then
        if 0 < inputData.length ∧ inputData.headD 0 = 0x01 then
          ⟨DispatchResult.diverged RebootKind.rebootToFirmwareUpdateDestructive,
            p.2, response, [Effect.confirmUserPresent 15000]⟩
        else
          ⟨DispatchResult.diverged RebootKind.rebootToFirmwareUpdate,
            p.2, response, [Effect.confirmUserPresent 15000]⟩
      else
        ⟨DispatchResult.err HidError.InvalidLength, p.2, response,
          [Effect.confirmUserPresent 15000]⟩
    else if c = UUID then
      ⟨DispatchResult.ok, app, extendFromSlice MESSAGE_SIZE response app.uuid, []⟩
    else if c = VERSION then
      ⟨DispatchResult.ok, app,
        extendFromSlice MESSAGE_SIZE response (toBeBytes32 app.version), []⟩
    else
      ⟨DispatchResult.err HidError.InvalidCommand, app, response, []⟩
  | HidCommand.wink =>
    ⟨DispatchResult.ok, { app with trussed := trussedWink app.trussed 10 },
      response, [Effect.wink 10]⟩
  | _ =>
    ⟨DispatchResult.err HidError.InvalidCommand, app, response, []⟩

/-- `apdu::App::call` (src/src/admin.rs lines 137-174): dispatch one
apdu.  The instruction byte must convert to a vendor command; `UPDATE`
additionally requires the contact interface and presence confirmation,
short-circuiting left to right. -/
def apduCall (app : App) (interface : Interface) (apdu : ApduCommand)
    (reply : List Nat) : Outcome Status :=
  match vendorCommandTryFrom apdu.instruction with
  | none =>
    ⟨DispatchResult.err Status.InstructionNotSupportedOrInvalid, app, reply, []⟩
  | some command =>
    if command = REBOOT then
      ⟨DispatchResult.diverged RebootKind.reboot, app, reply, []⟩
    else if command = RNG then
      let r := randomBytes app.trussed 57
      ⟨DispatchResult.ok, { app with trussed := r.2 },
        extendFromSlice RESPONSE_SIZE reply r.1, [Effect.randomBytes 57]⟩
    else if command = UPDATE then
      if interface = Interface.contact then
        let p := app.userPresent
        if p.1 then
          if apdu.p1 = 0x01 then
            ⟨DispatchResult.diverged RebootKind.rebootToFirmwareUpdateDestructive,
              p.2, reply, [Effect.confirmUserPresent 15000]⟩
          else
            ⟨DispatchResult.diverged RebootKind.rebootToFirmwareUpdate,
              p.2, reply, [Effect.confirmUserPresent 15000]⟩
        else
          ⟨DispatchResult.err Status.ConditionsOfUseNotSatisfied, p.2, reply,
            [Effect.confirmUserPresent 15000]⟩
      else
        ⟨DispatchResult.err Status.ConditionsOfUseNotSatisfied, app, reply, []⟩
    else if command = UUID then
      ⟨DispatchResult.ok, app, extendFromSlice RESPONSE_SIZE reply app.uuid, []⟩
    else if command = VERSION then
      ⟨DispatchResult.ok, app,
        extendFromSlice RESPONSE_SIZE reply (toBeBytes32 app.version), []⟩
    else
      ⟨DispatchResult.err Status.InstructionNotSupportedOrInvalid, app, reply, []⟩

/-- `apdu::App::select`: always succeeds, appends nothing, changes nothing. -/
def select (app : App) (reply : List Nat) : Outcome Status :=
  ⟨DispatchResult.ok, app, reply, []⟩

/-- `apdu::App::deselect`: a no-op. -/
def deselect (app : App) : App := app

/-- One externally initiated operation on the app: a packet-transport
call, a card-transport call, or the card-transport lifecycle hooks. -/
inductive Op
  | hid (command : HidCommand) (inputData response : List Nat)
  | card (interface : Interface) (apdu : ApduCommand) (reply : List Nat)
  | select (reply : List Nat)
  | deselect

/-- The app state after one operation. -/
def stepApp (app : App) (op : Op) : App :=
  match op with
  | Op.hid c i r => (hidCall app c i r).app
  | Op.card f a r => (apduCall app f a r).app
  | Op.select r => (select app r).app
  | Op.deselect => deselect app

/-- The app state after a sequence of operations. -/
def runOps (app : App) (ops : List Op) : App :=
  ops.foldl stepApp app

/-- The outcome the next `confirm_user_present` call would report. -/
def nextPresence (app : App) : Bool :=
  app.trussed.presence app.trussed.presencePos

/-- Big-endian reading of a byte list, most significant byte first. -/
def beValue (bs : List Nat) : Nat :=
  bs.foldl (fun a b => a * 256 + b) 0

/-- A concrete trussed state whose presence confirmations all succeed. -/
def grantingTrussed : Trussed :=
  { randomData := fun i => i, rngPos := 0,
    presence := fun _ => true, presencePos := 0, winks := [] }

/-- A concrete trussed state whose presence confirmations all fail. -/
def denyingTrussed : Trussed :=
  { randomData := fun i => i, rngPos := 0,
    presence := fun _ => false, presencePos := 0, winks := [] }

/-- A concrete app with a granting trussed service, version `0x01020300`
and a fixed 16-byte uuid. -/
def exampleApp : App :=
  App.new grantingTrussed
    [0, 1, 2, 3, 4, 5, 6, 7, 8, 9, 10, 11, 12, 13, 14, 15] 0x01020300

/-- A concrete app identical to `exampleApp` except that presence
confirmations fail. -/
def exampleAppDenied : App :=
  App.new denyingTrussed
    [0, 1, 2, 3, 4, 5, 6, 7, 8, 9, 10, 11, 12, 13, 14, 15] 0x01020300

/-- C1: for the same app state (same uuid, version and trussed service
behaviour) and the same initial response buffer, dispatching RNG, UUID
or VERSION over the packet transport and over the card transport leaves
byte-identical response buffers, hence byte-identical appended
payloads. -/
theorem rng_uuid_version_transport_agree (app : App) (interface : Interface)
    (inputData response : List Nat) (p1 c : Nat)
    (h : c = RNG ∨ c = VERSION ∨ c = UUID) :
    (hidCall app (HidCommand.vendor c) inputData response).response =
      (apduCall app interface ⟨c, p1⟩ response).response := by
  rcases h with h | h | h <;> subst h <;>
    simp [hidCall, apduCall, vendorCommandTryFrom, RNG, REBOOT, UPDATE, UUID,
      VERSION, MESSAGE_SIZE, RESPONSE_SIZE]

/-- Witness for C1 at the concrete command RNG. -/
theorem rng_uuid_version_transport_agree_witness :
    ((0x60 : Nat) = RNG ∨ (0x60 : Nat) = VERSION ∨ (0x60 : Nat) = UUID) ∧
    (hidCall exampleApp (HidCommand.vendor 0x60) [] []).response =
      (apduCall exampleApp Interface.contact ⟨0x60, 0⟩ []).response :=
  ⟨Or.inl rfl,
   rng_uuid_version_transport_agree exampleApp Interface.contact [] [] 0 0x60
     (Or.inl rfl)⟩

/-- C2: UPDATE over the packet transport with presence granted invokes
the destructive update-reboot variant when the input is non-empty with
first byte `0x01`, and otherwise the graceful variant; both diverge and
no response bytes are produced. -/
theorem hid_update_presence_granted (app : App) (inputData response : List Nat)
    (h : nextPresence app = true) :
    (hidCall app (HidCommand.vendor UPDATE) inputData response).result =
      DispatchResult.diverged
        (if inputData.head? = some 0x01 then
          RebootKind.rebootToFirmwareUpdateDestructive
         else RebootKind.rebootToFirmwareUpdate) ∧
    (hidCall app (HidCommand.vendor UPDATE) inputData response).response =
      response := by
  unfold nextPresence at h
  cases inputData with
  | nil =>
    simp [hidCall, App.userPresent, confirmUserPresent, UPDATE, REBOOT, RNG, h]
  | cons b rest =>
    by_cases hb : b = 0x01 <;>
      simp [hidCall, App.userPresent, confirmUserPresent, UPDATE, REBOOT, RNG,
        h, hb]

/-- Witness for C2 at a concrete granting app and input `[0x01]`. -/
theorem hid_update_presence_granted_witness :
    nextPresence exampleApp = true ∧
    ((hidCall exampleApp (HidCommand.vendor UPDATE) [0x01] []).result =
      DispatchResult.diverged
        (if ([0x01] : List Nat).head? = some 0x01 then
          RebootKind.rebootToFirmwareUpdateDestructive
         else RebootKind.rebootToFirmwareUpdate) ∧
     (hidCall exampleApp (HidCommand.vendor UPDATE) [0x01] []).response = []) :=
  ⟨rfl, hid_update_presence_granted exampleApp [0x01] [] rfl⟩

/-- C3: UPDATE over the packet transport with presence denied or timed
out returns `Err(InvalidLength)`, invokes no reboot operation (the call
completes instead of diverging), and appends no response bytes. -/
theorem hid_update_presence_denied (app : App) (inputData response : List Nat)
    (h : nextPresence app = false) :
    (hidCall app (HidCommand.vendor UPDATE) inputData response).result =
      DispatchResult.err HidError.InvalidLength ∧
    (hidCall app (HidCommand.vendor UPDATE) inputData response).response =
      response := by
  unfold nextPresence at h
  simp [hidCall, App.userPresent, confirmUserPresent, UPDATE, REBOOT, RNG, h]

/-- Witness for C3 at a concrete denying app. -/
theorem hid_update_presence_denied_witness :
    nextPresence exampleAppDenied = false ∧
    ((hidCall exampleAppDenied (HidCommand.vendor UPDATE) [0x01] []).result =
      DispatchResult.err HidError.InvalidLength ∧
     (hidCall exampleAppDenied (HidCommand.vendor UPDATE) [0x01] []).response =
      []) :=
  ⟨rfl, hid_update_presence_denied exampleAppDenied [0x01] [] rfl⟩

/-- C4: UPDATE over the card transport returns
`ConditionsOfUseNotSatisfied` and invokes no reboot operation whenever
the interface is contactless (for every presence outcome), and likewise
on the contact interface when presence is denied; no response bytes are
appended. -/
theorem apdu_update_guard (app : App) (interface : Interface)
    (apdu : ApduCommand) (reply : List Nat) (hi : apdu.instruction = UPDATE)
    (h : interface = Interface.contactless ∨ nextPresence app = false) :
    (apduCall app interface apdu reply).result =
      DispatchResult.err Status.ConditionsOfUseNotSatisfied ∧
    (apduCall app interface apdu reply).response = reply := by
  unfold nextPresence at h
  rcases h with h | h
  · subst h
    simp [apduCall, hi, vendorCommandTryFrom, UPDATE, REBOOT, RNG]
  · cases interface <;>
      simp [apduCall, hi, vendorCommandTryFrom, App.userPresent,
        confirmUserPresent, UPDATE, REBOOT, RNG, h]

/-- Witness for C4 at a contactless UPDATE apdu on a granting app. -/
theorem apdu_update_guard_witness :
    (ApduCommand.mk 0x51 0).instruction = UPDATE ∧
    (Interface.contactless = Interface.contactless ∨
      nextPresence exampleApp = false) ∧
    ((apduCall exampleApp Interface.contactless ⟨0x51, 0⟩ []).result =
      DispatchResult.err Status.ConditionsOfUseNotSatisfied ∧
     (apduCall exampleApp Interface.contactless ⟨0x51, 0⟩ []).response = []) :=
  ⟨rfl, Or.inl rfl,
   apdu_update_guard exampleApp Interface.contactless ⟨0x51, 0⟩ [] rfl
     (Or.inl rfl)⟩

/-- The packet-transport commands the dispatcher recognizes: WINK and
the five vendor codes UPDATE, REBOOT, RNG, VERSION, UUID. -/
def hidRecognized (command : HidCommand) : Bool :=
  match command with
  | HidCommand.wink => true
  | HidCommand.vendor c =>
    c = UPDATE || c = REBOOT || c = RNG || c = VERSION || c = UUID
  | _ => false

/-- The card-transport instruction bytes the dispatcher recognizes:
UPDATE, REBOOT, RNG, VERSION, UUID. -/
def cardRecognized (instruction : Nat) : Bool :=
  instruction = UPDATE || instruction = REBOOT || instruction = RNG ||
    instruction = VERSION || instruction = UUID

/-- C5: every unrecognized packet command returns
`Err(InvalidCommand)` and every unrecognized card instruction byte
returns `InstructionNotSupportedOrInvalid`; in both cases the call
completes (no reboot), issues no trusted-service call, appends no
response bytes, and leaves the app state unchanged. -/
theorem unknown_commands_rejected (app : App) (command : HidCommand)
    (inputData response : List Nat) (interface : Interface)
    (apdu : ApduCommand) (reply : List Nat)
    (h1 : hidRecognized command = false)
    (h2 : cardRecognized apdu.instruction = false) :
    ((hidCall app command inputData response).result =
        DispatchResult.err HidError.InvalidCommand ∧
      (hidCall app command inputData response).response = response ∧
      (hidCall app command inputData response).effects = [] ∧
      (hidCall app command inputData response).app = app) ∧
    ((apduCall app interface apdu reply).result =
        DispatchResult.err Status.InstructionNotSupportedOrInvalid ∧
      (apduCall app interface apdu reply).response = reply ∧
      (apduCall app interface apdu reply).effects = [] ∧
      (apduCall app interface apdu reply).app = app) := by
  constructor
  · cases command <;> simp_all [hidRecognized, hidCall]
  · simp only [cardRecognized, Bool.or_eq_false_iff, decide_eq_false_iff_not] at h2
    unfold apduCall vendorCommandTryFrom
    by_cases hr : 0x40 ≤ apdu.instruction ∧ apdu.instruction ≤ 0x7f <;>
      simp [hr, h2.1, h2.2]

/-- Witness for C5 at the concrete code `0x70` on both transports. -/
theorem unknown_commands_rejected_witness :
    hidRecognized (HidCommand.vendor 0x70) = false ∧
    cardRecognized (ApduCommand.mk 0x70 0).instruction = false ∧
    (((hidCall exampleApp (HidCommand.vendor 0x70) [] []).result =
        DispatchResult.err HidError.InvalidCommand ∧
      (hidCall exampleApp (HidCommand.vendor 0x70) [] []).response = [] ∧
      (hidCall exampleApp (HidCommand.vendor 0x70) [] []).effects = [] ∧
      (hidCall exampleApp (HidCommand.vendor 0x70) [] []).app = exampleApp) ∧
     ((apduCall exampleApp Interface.contact ⟨0x70, 0⟩ []).result =
        DispatchResult.err Status.InstructionNotSupportedOrInvalid ∧
      (apduCall exampleApp Interface.contact ⟨0x70, 0⟩ []).response = [] ∧
      (apduCall exampleApp Interface.contact ⟨0x70, 0⟩ []).effects = [] ∧
      (apduCall exampleApp Interface.contact ⟨0x70, 0⟩ []).app = exampleApp)) :=
  ⟨by decide, by decide,
   unknown_commands_rejected exampleApp (HidCommand.vendor 0x70) [] []
     Interface.contact ⟨0x70, 0⟩ [] (by decide) (by decide)⟩

/-- C6: dispatching RNG on either transport issues exactly one
`random_bytes(57)` request to the trusted service and, when the
response buffer has at least 57 bytes of remaining capacity, appends a
payload of exactly 57 bytes. -/
theorem rng_payload_57 (app : App) (inputData response reply : List Nat)
    (interface : Interface) (p1 : Nat)
    (h1 : response.length + 57 ≤ MESSAGE_SIZE)
    (h2 : reply.length + 57 ≤ RESPONSE_SIZE) :
    (hidCall app (HidCommand.vendor RNG) inputData response).effects =
      [Effect.randomBytes 57] ∧
    (hidCall app (HidCommand.vendor RNG) inputData response).response.length =
      response.length + 57 ∧
    (apduCall app interface ⟨RNG, p1⟩ reply).effects =
      [Effect.randomBytes 57] ∧
    (apduCall app interface ⟨RNG, p1⟩ reply).response.length =
      reply.length + 57 := by
  unfold MESSAGE_SIZE at h1
  unfold RESPONSE_SIZE at h2
  refine ⟨?_, ?_, ?_, ?_⟩ <;>
    simp [hidCall, apduCall, vendorCommandTryFrom, randomBytes, extendFromSlice,
      MESSAGE_SIZE, RESPONSE_SIZE, RNG, REBOOT, UPDATE, h1, h2,
      Nat.not_lt.mpr h1, Nat.not_lt.mpr h2]

/-- Witness for C6 with empty buffers. -/
theorem rng_payload_57_witness :
    ([] : List Nat).length + 57 ≤ MESSAGE_SIZE ∧
    ([] : List Nat).length + 57 ≤ RESPONSE_SIZE ∧
    ((hidCall exampleApp (HidCommand.vendor RNG) [] []).effects =
      [Effect.randomBytes 57] ∧
     (hidCall exampleApp (HidCommand.vendor RNG) [] []).response.length = 57 ∧
     (apduCall exampleApp Interface.contact ⟨RNG, 0⟩ []).effects =
      [Effect.randomBytes 57] ∧
     (apduCall exampleApp Interface.contact ⟨RNG, 0⟩ []).response.length = 57) :=
  ⟨by decide, by decide,
   rng_payload_57 exampleApp [] [] [] Interface.contact 0 (by decide)
     (by decide)⟩

/-- The value `beValue` assigns to the four bytes of `toBeBytes32 v` is
`v` itself, for every 32-bit `v`: `toBeBytes32` really is the
big-endian encoding. -/
theorem beValue_toBeBytes32 (v : Nat) (hv : v < 2 ^ 32) :
    beValue (toBeBytes32 v) = v := by
  simp only [beValue, toBeBytes32, List.foldl]
  norm_num
  omega

/-- C7: the VERSION command on either transport appends exactly the
4-byte payload `toBeBytes32 version`, and that payload is the
big-endian encoding of the configured 32-bit version: it has length 4
and reads back, most significant byte first, as the version value. -/
theorem version_big_endian (app : App) (inputData response reply : List Nat)
    (interface : Interface) (p1 : Nat) (hv : app.version < 2 ^ 32)
    (h1 : response.length + 4 ≤ MESSAGE_SIZE)
    (h2 : reply.length + 4 ≤ RESPONSE_SIZE) :
    (hidCall app (HidCommand.vendor VERSION) inputData response).response =
      response ++ toBeBytes32 app.version ∧
    (apduCall app interface ⟨VERSION, p1⟩ reply).response =
      reply ++ toBeBytes32 app.version ∧
    (toBeBytes32 app.version).length = 4 ∧
    beValue (toBeBytes32 app.version) = app.version := by
  unfold MESSAGE_SIZE at h1
  unfold RESPONSE_SIZE at h2
  refine ⟨?_, ?_, rfl, beValue_toBeBytes32 app.version hv⟩ <;>
    simp [hidCall, apduCall, vendorCommandTryFrom, extendFromSlice, toBeBytes32,
      MESSAGE_SIZE, RESPONSE_SIZE, VERSION, REBOOT, RNG, UPDATE, UUID] <;>
    omega

/-- Witness for C7 at version `0x01020300`, whose payload is
`[0x01, 0x02, 0x03, 0x00]`. -/
theorem version_big_endian_witness :
    exampleApp.version < 2 ^ 32 ∧
    ([] : List Nat).length + 4 ≤ MESSAGE_SIZE ∧
    ([] : List Nat).length + 4 ≤ RESPONSE_SIZE ∧
    ((hidCall exampleApp (HidCommand.vendor VERSION) [] []).response =
      [] ++ toBeBytes32 exampleApp.version ∧
     (apduCall exampleApp Interface.contact ⟨VERSION, 0⟩ []).response =
      [] ++ toBeBytes32 exampleApp.version ∧
     (toBeBytes32 exampleApp.version).length = 4 ∧
     beValue (toBeBytes32 exampleApp.version) = exampleApp.version) ∧
    toBeBytes32 exampleApp.version = [0x01, 0x02, 0x03, 0x00] :=
  ⟨by decide, by decide, by decide,
   version_big_endian exampleApp [] [] [] Interface.contact 0 (by decide)
     (by decide) (by decide),
   by decide⟩

/-- The length of the payload the dispatcher tries to append for an
RNG, VERSION or UUID command. -/
def payloadLen (app : App) (c : Nat) : Nat :=
  if c = RNG then 57 else if c = VERSION then 4 else app.uuid.length

/-- Equation lemma: a UUID command over the packet transport. -/
theorem hidCall_uuid_eq (app : App) (inputData response : List Nat) :
    hidCall app (HidCommand.vendor UUID) inputData response =
      ⟨DispatchResult.ok, app, extendFromSlice MESSAGE_SIZE response app.uuid,
        []⟩ := by
  simp [hidCall, UUID, REBOOT, RNG, UPDATE]

/-- Equation lemma: a VERSION command over the packet transport. -/
theorem hidCall_version_eq (app : App) (inputData response : List Nat) :
    hidCall app (HidCommand.vendor VERSION) inputData response =
      ⟨DispatchResult.ok, app,
        extendFromSlice MESSAGE_SIZE response (toBeBytes32 app.version), []⟩ := by
  simp [hidCall, VERSION, REBOOT, RNG, UPDATE, UUID]

/-- Equation lemma: an RNG command over the packet transport. -/
theorem hidCall_rng_eq (app : App) (inputData response : List Nat) :
    hidCall app (HidCommand.vendor RNG) inputData response =
      ⟨DispatchResult.ok, { app with trussed := (randomBytes app.trussed 57).2 },
        extendFromSlice MESSAGE_SIZE response (randomBytes app.trussed 57).1,
        [Effect.randomBytes 57]⟩ := by
  simp [hidCall, RNG, REBOOT]

/-- Equation lemma: a UUID apdu over the card transport. -/
theorem apduCall_uuid_eq (app : App) (interface : Interface) (p1 : Nat)
    (reply : List Nat) :
    apduCall app interface ⟨UUID, p1⟩ reply =
      ⟨DispatchResult.ok, app, extendFromSlice RESPONSE_SIZE reply app.uuid,
        []⟩ := by
  simp [apduCall, vendorCommandTryFrom, UUID, REBOOT, RNG, UPDATE]

/-- Equation lemma: a VERSION apdu over the card transport. -/
theorem apduCall_version_eq (app : App) (interface : Interface) (p1 : Nat)
    (reply : List Nat) :
    apduCall app interface ⟨VERSION, p1⟩ reply =
      ⟨DispatchResult.ok, app,
        extendFromSlice RESPONSE_SIZE reply (toBeBytes32 app.version), []⟩ := by
  simp [apduCall, vendorCommandTryFrom, VERSION, REBOOT, RNG, UPDATE, UUID]

/-- Equation lemma: an RNG apdu over the card transport. -/
theorem apduCall_rng_eq (app : App) (interface : Interface) (p1 : Nat)
    (reply : List Nat) :
    apduCall app interface ⟨RNG, p1⟩ reply =
      ⟨DispatchResult.ok, { app with trussed := (randomBytes app.trussed 57).2 },
        extendFromSlice RESPONSE_SIZE reply (randomBytes app.trussed 57).1,
        [Effect.randomBytes 57]⟩ := by
  simp [apduCall, vendorCommandTryFrom, RNG, REBOOT]

/-- When the new bytes overflow the remaining capacity, the append
leaves the buffer unchanged. -/
theorem extendFromSlice_of_overflow (capacity : Nat) (buf newBytes : List Nat)
    (h : capacity < buf.length + newBytes.length) :
    extendFromSlice capacity buf newBytes = buf := by
  unfold extendFromSlice
  rw [if_pos h]

/-- C8 counterexample: with 9 bytes of remaining capacity, a UUID call
over the packet transport does not truncate the 16-byte payload to the
9 bytes that fit — it appends nothing at all — although it does return
success. -/
theorem overflow_truncation_counterexample :
    (hidCall exampleApp (HidCommand.vendor UUID) []
        (List.replicate 7600 0)).result = DispatchResult.ok ∧
    (hidCall exampleApp (HidCommand.vendor UUID) []
        (List.replicate 7600 0)).response = List.replicate 7600 0 ∧
    (hidCall exampleApp (HidCommand.vendor UUID) []
        (List.replicate 7600 0)).response ≠
      List.replicate 7600 0 ++ exampleApp.uuid.take (MESSAGE_SIZE - 7600) := by
  have hlen : (List.replicate 7600 (0 : Nat)).length = 7600 :=
    List.length_replicate 7600 0
  have hex : extendFromSlice MESSAGE_SIZE (List.replicate 7600 0)
      exampleApp.uuid = List.replicate 7600 0 := by
    apply extendFromSlice_of_overflow
    rw [hlen]
    decide
  refine ⟨?_, ?_, ?_⟩
  · simp only [hidCall_uuid_eq]
  · simp only [hidCall_uuid_eq]
    exact hex
  · simp only [hidCall_uuid_eq]
    rw [hex]
    intro hcontra
    have hl := congrArg List.length hcontra
    rw [List.length_append, hlen] at hl
    have ht : (exampleApp.uuid.take (MESSAGE_SIZE - 7600)).length = 9 := rfl
    rw [ht] at hl
    omega

/-- C8 amended: when the payload of an RNG, VERSION or UUID command
does not fit into the remaining capacity of the response buffer, the
dispatcher appends nothing at all (the whole payload is dropped, not
just the excess) and still returns success on both transports: a
failed append is never surfaced as an error. -/
theorem overflow_append_dropped (app : App) (inputData response reply : List Nat)
    (interface : Interface) (p1 c : Nat)
    (h : c = RNG ∨ c = VERSION ∨ c = UUID)
    (h1 : MESSAGE_SIZE < response.length + payloadLen app c)
    (h2 : RESPONSE_SIZE < reply.length + payloadLen app c) :
    (hidCall app (HidCommand.vendor c) inputData response).response =
      response ∧
    (hidCall app (HidCommand.vendor c) inputData response).result =
      DispatchResult.ok ∧
    (apduCall app interface ⟨c, p1⟩ reply).response = reply ∧
    (apduCall app interface ⟨c, p1⟩ reply).result = DispatchResult.ok := by
  rcases h with h | h | h <;> subst h
  · have hp : payloadLen app RNG = 57 := rfl
    rw [hp] at h1 h2
    have hl : (randomBytes app.trussed 57).1.length = 57 := by
      simp [randomBytes]
    simp only [hidCall_rng_eq, apduCall_rng_eq]
    refine ⟨?_, trivial, ?_, trivial⟩ <;>
      (apply extendFromSlice_of_overflow; rw [hl]; omega)
  · have hp : payloadLen app VERSION = 4 := rfl
    rw [hp] at h1 h2
    have hl : (toBeBytes32 app.version).length = 4 := rfl
    simp only [hidCall_version_eq, apduCall_version_eq]
    refine ⟨?_, trivial, ?_, trivial⟩ <;>
      (apply extendFromSlice_of_overflow; rw [hl]; omega)
  · have hp : payloadLen app UUID = app.uuid.length := rfl
    rw [hp] at h1 h2
    simp only [hidCall_uuid_eq, apduCall_uuid_eq]
    refine ⟨?_, trivial, ?_, trivial⟩ <;>
      (apply extendFromSlice_of_overflow; omega)

/-- Witness for C8's amended theorem: UUID with 9 bytes of remaining
capacity on both transports. -/
theorem overflow_append_dropped_witness :
    ((0x62 : Nat) = RNG ∨ (0x62 : Nat) = VERSION ∨ (0x62 : Nat) = UUID) ∧
    MESSAGE_SIZE < (List.replicate 7600 0).length + payloadLen exampleApp 0x62 ∧
    RESPONSE_SIZE < (List.replicate 7600 0).length + payloadLen exampleApp 0x62 ∧
    ((hidCall exampleApp (HidCommand.vendor 0x62) []
        (List.replicate 7600 0)).response = List.replicate 7600 0 ∧
     (hidCall exampleApp (HidCommand.vendor 0x62) []
        (List.replicate 7600 0)).result = DispatchResult.ok ∧
     (apduCall exampleApp Interface.contact ⟨0x62, 0⟩
        (List.replicate 7600 0)).response = List.replicate 7600 0 ∧
     (apduCall exampleApp Interface.contact ⟨0x62, 0⟩
        (List.replicate 7600 0)).result = DispatchResult.ok) :=
  ⟨Or.inr (Or.inr rfl),
   by rw [List.length_replicate]; decide,
   by rw [List.length_replicate]; decide,
   overflow_append_dropped exampleApp [] (List.replicate 7600 0)
     (List.replicate 7600 0) Interface.contact 0 0x62 (Or.inr (Or.inr rfl))
     (by rw [List.length_replicate]; decide)
     (by rw [List.length_replicate]; decide)⟩

/-- C6 counterexample: an RNG call into a packet response buffer with
only 4 bytes of remaining capacity still requests 57 random bytes from
the trusted service, but appends none of them: the appended payload is
0 bytes long, not 57. -/
theorem rng_overflow_counterexample :
    (hidCall exampleApp (HidCommand.vendor RNG) []
        (List.replicate 7605 0)).effects = [Effect.randomBytes 57] ∧
    (hidCall exampleApp (HidCommand.vendor RNG) []
        (List.replicate 7605 0)).response = List.replicate 7605 0 ∧
    (hidCall exampleApp (HidCommand.vendor RNG) []
        (List.replicate 7605 0)).response.length ≠
      (List.replicate 7605 (0 : Nat)).length + 57 := by
  have hlen : (List.replicate 7605 (0 : Nat)).length = 7605 :=
    List.length_replicate 7605 0
  have hl : (randomBytes exampleApp.trussed 57).1.length = 57 := by
    simp [randomBytes]
  have hex : extendFromSlice MESSAGE_SIZE (List.replicate 7605 0)
      (randomBytes exampleApp.trussed 57).1 = List.replicate 7605 0 := by
    apply extendFromSlice_of_overflow
    rw [hlen, hl]
    decide
  refine ⟨?_, ?_, ?_⟩
  · simp only [hidCall_rng_eq]
  · simp only [hidCall_rng_eq]
    exact hex
  · simp only [hidCall_rng_eq]
    rw [hex, hlen]
    omega

/-- C7 counterexample: a VERSION apdu answered into a reply buffer with
only 3 bytes of remaining capacity appends nothing at all, not the
4-byte big-endian encoding of the version. -/
theorem version_overflow_counterexample :
    (apduCall exampleApp Interface.contact ⟨VERSION, 0⟩
        (List.replicate 7606 0)).response = List.replicate 7606 0 ∧
    (apduCall exampleApp Interface.contact ⟨VERSION, 0⟩
        (List.replicate 7606 0)).response ≠
      List.replicate 7606 0 ++ toBeBytes32 exampleApp.version := by
  have hlen : (List.replicate 7606 (0 : Nat)).length = 7606 :=
    List.length_replicate 7606 0
  have hex : extendFromSlice RESPONSE_SIZE (List.replicate 7606 0)
      (toBeBytes32 exampleApp.version) = List.replicate 7606 0 := by
    apply extendFromSlice_of_overflow
    rw [hlen]
    decide
  refine ⟨?_, ?_⟩
  · simp only [apduCall_version_eq]
    exact hex
  · simp only [apduCall_version_eq]
    rw [hex]
    intro hcontra
    have hl := congrArg List.length hcontra
    rw [List.length_append, hlen] at hl
    have ht : (toBeBytes32 exampleApp.version).length = 4 := rfl
    rw [ht] at hl
    omega

/-- Each single operation leaves the uuid and the version unchanged. -/
theorem stepApp_preserves (app : App) (op : Op) :
    (stepApp app op).uuid = app.uuid ∧ (stepApp app op).version = app.version := by
  cases op with
  | hid c i r =>
    cases c <;> simp only [stepApp, hidCall] <;> repeat' split
    all_goals simp [App.userPresent]
  | card f a r =>
    simp only [stepApp, apduCall]
    repeat' split
    all_goals simp [App.userPresent]
  | select r => exact ⟨rfl, rfl⟩
  | deselect => exact ⟨rfl, rfl⟩

/-- C9: across every sequence of dispatch calls on either transport,
including select and deselect on the card transport, the app's uuid and
version fields are unchanged. -/
theorem identity_immutable (app : App) (ops : List Op) :
    (runOps app ops).uuid = app.uuid ∧ (runOps app ops).version = app.version := by
  induction ops generalizing app with
  | nil => exact ⟨rfl, rfl⟩
  | cons op rest ih =>
    have h1 := stepApp_preserves app op
    have h2 := ih (stepApp app op)
    simp only [runOps, List.foldl] at h2 ⊢
    exact ⟨h2.1.trans h1.1, h2.2.trans h1.2⟩

/-- C10: an UPDATE apdu arriving on the contactless interface never
reaches the presence check: the conjunction short-circuits on the
interface test, so the dispatcher issues no trusted-service call at all
(in particular no `confirm_user_present`) and leaves the app state,
including the presence position, unchanged. -/
theorem contactless_update_no_presence_call (app : App) (p1 : Nat)
    (reply : List Nat) :
    (apduCall app Interface.contactless ⟨UPDATE, p1⟩ reply).effects = [] ∧
    (apduCall app Interface.contactless ⟨UPDATE, p1⟩ reply).app = app := by
  simp [apduCall, vendorCommandTryFrom, UPDATE, REBOOT, RNG]

end AdminApp
